import Mathlib

/-!
Verification of the story-generation core of the Children-s-Story-Generator
repository: a shallow embedding of `utils/api_utils.py` (the transient-call
retrier), `generators/prompt_generator.py` (the prompt acquirer) and
`generators/story_generator.py` (the story/image session and the generation
supervisor), together with theorems settling the specification claims.

Python strings are modelled as Lean `String`; the regular expressions the
code uses (blank-line splitting, quoted-text extraction) are implemented
directly over `List Char` with Python `re` semantics (leftmost match,
greedy star, lazy plus, and a dot that does not match a newline).
External effects (the generative-model API, the filesystem, the clock) are
modelled by explicit environment records, and each sleep is recorded in an
event list so that backoff behaviour is provable.
-/

set_option maxRecDepth 4000

/-! ## Python string primitives -/

/-- The characters matched by the Python regex class backslash-s (ASCII range). -/
def isPySpace (c : Char) : Bool :=
  c == ' ' || c == '\t' || c == '\n' || c == '\r' || c == '\x0b' || c == '\x0c'

def nlChar : Char := '\n'

/-- Python `str.strip` on the character list. -/
def pyStripData (l : List Char) : List Char :=
  ((l.dropWhile isPySpace).reverse.dropWhile isPySpace).reverse

/-- Python `str.strip`. -/
def pyStrip (s : String) : String := String.mk (pyStripData s.data)

/-- Does `hay` start with `needle`? -/
def startsWithSub : List Char → List Char → Bool
  | [], _ => true
  | _ :: _, [] => false
  | a :: as, b :: bs => a == b && startsWithSub as bs

/-- Contiguous-substring test: Python `needle in hay` on character lists. -/
def containsSub (needle : List Char) : List Char → Bool
  | [] => startsWithSub needle []
  | c :: rest => startsWithSub needle (c :: rest) || containsSub needle rest

/-- Python `needle in hay` on strings. -/
def pyIn (needle hay : String) : Bool := containsSub needle.data hay.data

/-- Python `str.lower` (ASCII model). -/
def pyLower (s : String) : String := String.mk (s.data.map Char.toLower)

/-- Scan the whitespace prefix of `l`; return the remainder after the last
newline inside that prefix, if any.  This is the greedy continuation of the
Python regex fragment backslash-s-star newline. -/
def lastNlRem : List Char → Option (List Char)
  | [] => none
  | c :: rest =>
    if isPySpace c then
      match lastNlRem rest with
      | some r => some r
      | none => if c == nlChar then some rest else none
    else none

/-- If the list starts with a match of the Python regex
newline backslash-s-star newline, return what follows the (greedy) match. -/
def matchBlankRem : List Char → Option (List Char)
  | [] => none
  | c :: rest => if c == nlChar then lastNlRem rest else none

theorem lastNlRem_length_lt (l : List Char) :
    ∀ r, lastNlRem l = some r → r.length < l.length := by
  induction l with
  | nil => intro r h; simp [lastNlRem] at h
  | cons c rest ih =>
    intro r h
    simp only [lastNlRem] at h
    by_cases hsp : isPySpace c
    · rw [if_pos hsp] at h
      cases hrec : lastNlRem rest with
      | some r2 =>
        rw [hrec] at h
        simp only [Option.some.injEq] at h
        subst h
        exact Nat.lt_trans (ih r2 hrec) (by simp)
      | none =>
        rw [hrec] at h
        by_cases hnl : c == nlChar
        · rw [if_pos hnl] at h
          simp only [Option.some.injEq] at h
          subst h
          simp
        · rw [if_neg hnl] at h; exact absurd h (by simp)
    · rw [if_neg hsp] at h; exact absurd h (by simp)

theorem matchBlankRem_length_lt (l : List Char) :
    ∀ r, matchBlankRem l = some r → r.length < l.length := by
  cases l with
  | nil => intro r h; simp [matchBlankRem] at h
  | cons c rest =>
    intro r h
    simp only [matchBlankRem] at h
    by_cases hnl : c == nlChar
    · rw [if_pos hnl] at h
      exact Nat.lt_trans (lastNlRem_length_lt rest r h) (by simp)
    · rw [if_neg hnl] at h; exact absurd h (by simp)

/-- Is there a match of the blank-line regex anywhere in the list?
Python `re.search` existence for the pattern newline backslash-s-star newline. -/
def pyHasBlank : List Char → Bool
  | [] => false
  | c :: rest => (matchBlankRem (c :: rest)).isSome || pyHasBlank rest

/-- Python `re.split(pattern, s, 1)` for the blank-line pattern:
split at the leftmost match only. -/
def pySplitOnceGo (acc : List Char) : List Char → List (List Char)
  | [] => [acc.reverse]
  | c :: rest =>
    match matchBlankRem (c :: rest) with
    | some rem => [acc.reverse, rem]
    | none => pySplitOnceGo (c :: acc) rest

def pySplitOnce (l : List Char) : List (List Char) := pySplitOnceGo [] l

/-- Python `re.split(pattern, s)` for the blank-line pattern: split at every
(leftmost, non-overlapping) match.  The recursion is fuelled so that it
stays structural (and hence kernel-reducible); by
`matchBlankRem_length_lt` every step strictly shrinks the input, so fuel
`l.length + 1` is always sufficient. -/
def pySplitAllGo (fuel : Nat) (acc : List Char) (l : List Char) : List (List Char) :=
  match fuel with
  | 0 => [acc.reverse]
  | fuel' + 1 =>
    match l with
    | [] => [acc.reverse]
    | c :: rest =>
      match matchBlankRem (c :: rest) with
      | some rem => acc.reverse :: pySplitAllGo fuel' [] rem
      | none => pySplitAllGo fuel' (c :: acc) rest

def pySplitAll (l : List Char) : List (List Char) :=
  pySplitAllGo (l.length + 1) [] l

/-- Python `str.split(sep)` for a single-character separator. -/
def pySplitCharGo (sep : Char) (acc : List Char) : List Char → List (List Char)
  | [] => [acc.reverse]
  | c :: rest =>
    if c == sep then acc.reverse :: pySplitCharGo sep [] rest
    else pySplitCharGo sep (c :: acc) rest

/-- Python `s.split('\n')` as a list of strings. -/
def pySplitNl (s : String) : List String :=
  (pySplitCharGo nlChar [] s.data).map String.mk

/-- Python `s.split('/')` as a list of strings. -/
def pySplitSlash (s : String) : List String :=
  (pySplitCharGo '/' [] s.data).map String.mk

def quoteChar : Char := Char.ofNat 34

/-- Lazy group scan for the Python regex quote dot-plus-lazy quote once the
opening quote has been consumed: close at the earliest quote after at least
one group character; a newline fails the attempt (dot does not match it). -/
def grpScan (acc : List Char) : List Char → Option (List Char)
  | [] => none
  | c :: rest =>
    if !acc.isEmpty && c == quoteChar then some acc.reverse
    else if c == nlChar then none
    else grpScan (c :: acc) rest

/-- Python `re.search` for the quote dot-plus-lazy quote pattern, returning
the first capture group: try each position left to right; at a quote, scan
lazily for the closing quote. -/
def reSearchQuoted : List Char → Option (List Char)
  | [] => none
  | c :: rest =>
    if c == quoteChar then
      match grpScan [] rest with
      | some g => some g
      | none => reSearchQuoted rest
    else reSearchQuoted rest

/-! ### Substring lemmas -/

theorem startsWithSub_self_append (n t : List Char) :
    startsWithSub n (n ++ t) = true := by
  induction n with
  | nil => rfl
  | cons a as ih => simp [startsWithSub, ih]

theorem containsSub_of_startsWithSub (n h : List Char)
    (hs : startsWithSub n h = true) : containsSub n h = true := by
  cases h with
  | nil => exact hs
  | cons c rest => simp [containsSub, hs]

theorem containsSub_cons (n : List Char) (c : Char) (t : List Char)
    (hs : containsSub n t = true) : containsSub n (c :: t) = true := by
  simp [containsSub, hs]

theorem containsSub_append_left (l n h : List Char)
    (hs : containsSub n h = true) : containsSub n (l ++ h) = true := by
  induction l with
  | nil => exact hs
  | cons c cs ih => exact containsSub_cons _ _ _ ih

/-- If the haystack decomposes as `pre ++ needle ++ post` then the Python
substring test succeeds. -/
theorem containsSub_middle (pre n post : List Char) :
    containsSub n (pre ++ (n ++ post)) = true :=
  containsSub_append_left pre n (n ++ post)
    (containsSub_of_startsWithSub n (n ++ post) (startsWithSub_self_append n post))

/-- A successful non-empty substring test forces a non-empty haystack. -/
theorem pyIn_pos (n h : String) (hn : 0 < n.length) (hh : pyIn n h = true) :
    0 < h.length := by
  cases hd : h.data with
  | cons c t => simp [String.length, hd]
  | nil =>
    exfalso
    unfold pyIn at hh
    rw [hd] at hh
    cases hnd : n.data with
    | nil => rw [show n.length = n.data.length from rfl, hnd] at hn; exact absurd hn (by simp)
    | cons a as => rw [hnd] at hh; simp [containsSub, startsWithSub] at hh

/-! ## Transient-call retrier: `utils/api_utils.py`, `retry_api_call`

The wrapped operation is modelled as a function from the attempt index to a
call outcome: a raised exception with its message string, or a returned
Python value.  Returned values are modelled only as far as the code inspects
them: `None`, an abstract value with its truthiness, or a dict with a
`candidates` list whose candidates carry an optional truthy `content` dict
with a `parts` list, each part optionally carrying a `text` string.
`retry_api_call` returns the delivered result (or `None` on budget
exhaustion) together with the list of the sleep durations it performed, in
order. -/

/-- A response part: the `text` field, when the part is a dict with one. -/
abbrev RespPart := Option String

/-- A response candidate: the `parts` of its truthy `content` dict, when present. -/
abbrev RespCandidate := Option (List RespPart)

inductive PyResult where
  | pynone
  | plain (truthy : Bool)
  | resp (candidates : List RespCandidate)
deriving Repr, DecidableEq

inductive CallOutcome where
  | ok (r : PyResult)
  | exn (msg : String)
deriving Repr

def retry_delay : Nat := 10

def max_consecutive_failures : Nat := 1000

/-- Python truthiness of the modelled result values: `None` is falsy, a
dict carrying a `candidates` key is non-empty and hence truthy. -/
def pyTruthy : PyResult → Bool
  | .pynone => false
  | .plain b => b
  | .resp _ => true

def imageDescMarker : String := "**Image Description:**"

def partFlagged : RespPart → Bool
  | some t => pyIn imageDescMarker t
  | none => false

def candidateFlaggedCount : RespCandidate → Nat
  | some parts => (parts.filter partFlagged).length
  | none => 0

/-- The sleeps performed by the marker scan over a returned response: the
code sleeps once per part whose text contains the image-description marker,
but its `continue` only advances the inner parts loop, so the scan falls
through to the success return. -/
def markerSleeps : PyResult → List Nat
  | .resp cands => List.replicate ((cands.map candidateFlaggedCount).sum) retry_delay
  | _ => []

/-- The except-branch of an attempt: the sleeps performed inside the chosen
classification branch, and whether that branch ends in `continue` (skipping
the shared trailing sleep).  Branch order follows the source. -/
def exnBranch (msg : String) : List Nat × Bool :=
  if pyIn "500 Internal Server Error" msg then ([], false)
  else if pyIn "503 Service Unavailable" msg then ([], false)
  else if pyIn "429 Too Many Requests" msg then ([2 * retry_delay], true)
  else if pyIn "400 Bad Request" msg then ([], false)
  else if pyIn "ResourceExhausted" msg then ([], false)
  else if pyIn "grpc" (pyLower msg) || pyIn "deadline exceeded" (pyLower msg) then ([], false)
  else if pyIn "model not found" (pyLower msg) then ([], false)
  else if pyIn "content_blocked" (pyLower msg) || pyIn "blocked_reason" (pyLower msg) then ([], false)
  else ([], false)

/-- The retry loop of `retry_api_call`: `fuel` attempts remain, `i` is the
index of the next call.  Returns the delivered value (or `none` after the
budget) and the sleep trace. -/
def retryGo (fnName : String) (calls : Nat → CallOutcome) :
    Nat → Nat → Option PyResult × List Nat
  | 0, _ => (none, [])
  | fuel + 1, i =>
    match calls i with
    | .exn msg =>
      let br := exnBranch msg
      let rest := retryGo fnName calls fuel (i + 1)
      (rest.1, br.1 ++ (if br.2 then [] else [retry_delay]) ++ rest.2)
    | .ok r =>
      if fnName == "generate_content_stream" || fnName == "generate_content" then
        if pyTruthy r then (some r, markerSleeps r)
        else
          let rest := retryGo fnName calls fuel (i + 1)
          (rest.1, [retry_delay] ++ rest.2)
      else
        match r with
        | .pynone =>
          let rest := retryGo fnName calls fuel (i + 1)
          (rest.1, [retry_delay] ++ rest.2)
        | _ => (some r, [])

def retry_api_call (fnName : String) (calls : Nat → CallOutcome) :
    Option PyResult × List Nat :=
  retryGo fnName calls max_consecutive_failures 0

theorem retryGo_exn_step (fn : String) (calls : Nat → CallOutcome)
    (fuel i : Nat) (msg : String) (h : calls i = .exn msg) :
    retryGo fn calls (fuel + 1) i =
      ((retryGo fn calls fuel (i + 1)).1,
        (exnBranch msg).1 ++ (if (exnBranch msg).2 then [] else [retry_delay]) ++
          (retryGo fn calls fuel (i + 1)).2) := by
  simp only [retryGo, h]

theorem retryGo_ok_content (fn : String) (calls : Nat → CallOutcome)
    (fuel i : Nat) (r : PyResult) (h : calls i = .ok r)
    (hb : (fn == "generate_content_stream" || fn == "generate_content") = true)
    (ht : pyTruthy r = true) :
    retryGo fn calls (fuel + 1) i = (some r, markerSleeps r) := by
  simp only [retryGo, h, hb, ht, if_pos]

theorem retryGo_ok_other (fn : String) (calls : Nat → CallOutcome)
    (fuel i : Nat) (r : PyResult) (h : calls i = .ok r)
    (hb : (fn == "generate_content_stream" || fn == "generate_content") = false)
    (hr : r ≠ .pynone) :
    retryGo fn calls (fuel + 1) i = (some r, []) := by
  cases r with
  | pynone => exact absurd rfl hr
  | plain b => simp only [retryGo, h, hb, Bool.false_eq_true, if_false]
  | resp cands => simp only [retryGo, h, hb, Bool.false_eq_true, if_false]

/-! ## Prompt acquirer: `generators/prompt_generator.py`

The generative model and `random.choice` are abstracted into an environment:
the chunk texts the streaming call delivers (only chunks with a truthy
`text` attribute contribute), whether the streaming or the non-streaming
call raises, the optional `text` of the non-streaming response, whether
anything else in the outer `try` raises, and the indices `random.choice`
picks for the procedural fallback. -/

structure PromptEnv where
  outerRaises : Bool
  streamRaises : Bool
  streamChunks : List String
  nonStreamRaises : Bool
  nonStreamText : Option String
  animalIdx : Nat
  settingIdx : Nat

def promptSub1 : String := "Generate a story about"

def promptSub2 : String := "going on an adventure in"

def promptAnimals : List String :=
  ["fox", "bear", "rabbit", "elephant", "tiger", "penguin", "koala", "turtle",
    "lion", "dolphin"]

def promptSettings : List String :=
  ["enchanted forest", "snowy mountain", "deep ocean", "outer space",
    "desert oasis", "ancient castle", "tropical island", "underwater cave",
    "cloud city", "magical garden"]

/-- Function `generate_fallback_prompt`: uniformly sampled animal and setting
interpolated into the fixed literal template.  The uniform samples are
modelled as arbitrary indices reduced modulo the list lengths. -/
def generate_fallback_prompt (promptInput : String) (aIdx sIdx : Nat) : String :=
  let animal := promptAnimals.getD (aIdx % promptAnimals.length) ""
  let setting := promptSettings.getD (sIdx % promptSettings.length) ""
  "Generate a story about a clever " ++ animal ++ " going on an adventure in a "
    ++ setting
    ++ " in a highly detailed 3d cartoon animation style. For each scene, generate a high-quality, photorealistic image for each scene 3d images **in landscape orientation suitable for a widescreen (16:9 aspect ratio) YouTube video**. Ensure maximum detail, vibrant colors, and professional lighting."

/-- The re-check after quoted-text recovery: keep the (possibly extracted)
prompt when it contains the first required substring, else fall back. -/
def promptRecover (promptInput : String) (aIdx sIdx : Nat) (gp2 : String) : String :=
  if pyIn promptSub1 gp2 then gp2
  else generate_fallback_prompt promptInput aIdx sIdx

/-- The validation block of `generate_prompt`: return the stripped prompt
when both required substrings are present; otherwise try to extract quoted
text and re-check only the first substring. -/
def promptValidate (promptInput : String) (aIdx sIdx : Nat) (gp : String) : String :=
  if pyIn promptSub1 gp && pyIn promptSub2 gp then gp
  else
    promptRecover promptInput aIdx sIdx
      (match reSearchQuoted gp.data with
        | some g => String.mk g
        | none => gp)

/-- Function `generate_prompt`: accumulate streamed chunk texts (falling back to the
non-streaming call if the stream raises, keeping any accumulated prefix and
overwriting it when the response has a `text`), strip, then validate —
returning the procedural fallback on every failure path. -/
def generate_prompt (promptInput : String) (useStreaming : Bool) (env : PromptEnv) : String :=
  if env.outerRaises then generate_fallback_prompt promptInput env.animalIdx env.settingIdx
  else
    let streamed := if useStreaming then String.join env.streamChunks else ""
    let stillStreaming := useStreaming && !env.streamRaises
    if !stillStreaming && env.nonStreamRaises then
      generate_fallback_prompt promptInput env.animalIdx env.settingIdx
    else
      let raw :=
        if !stillStreaming then
          match env.nonStreamText with
          | some t => t
          | none => streamed
        else streamed
      promptValidate promptInput env.animalIdx env.settingIdx (pyStrip raw)

theorem cleverHeadSplit :
    ("Generate a story about a clever ").data
      = promptSub1.data ++ (" a clever ").data := by decide

theorem fallback_contains_sub1 (inp : String) (a s : Nat) :
    pyIn promptSub1 (generate_fallback_prompt inp a s) = true := by
  unfold generate_fallback_prompt pyIn
  rw [String.data_append, String.data_append, String.data_append,
    String.data_append, cleverHeadSplit]
  simp only [List.append_assoc]
  exact containsSub_middle [] _ _

theorem fallback_length_pos (inp : String) (a s : Nat) :
    0 < (generate_fallback_prompt inp a s).length := by
  unfold generate_fallback_prompt
  simp only [String.length_append]
  have hl : 0 < ("Generate a story about a clever ").length := by decide
  omega

/-! ## Story/image session: `generators/story_generator.py`, `generate`

The mixed text/image response is modelled chunk by chunk.  An inline image
part carries its base64 payload and MIME type, plus two environment
filesystem verdicts for it: whether decode-and-save raises and whether the
PIL verification open fails.  A chunk may raise a `json.JSONDecodeError`
(aborting the attempt) or another exception (skipping the chunk). -/

structure InlineImage where
  dataStr : String
  mime : String
  saveRaises : Bool
  verifyFails : Bool
deriving Repr, DecidableEq

structure ChunkPart where
  inline : Option InlineImage
  procRaises : Bool
deriving Repr, DecidableEq

structure Chunk where
  text : Option String
  parts : Option (List ChunkPart)
  jsonErr : Bool
  otherErr : Bool
deriving Repr, DecidableEq

structure NonStreamResp where
  raises : Bool
  text : Option String
  parts : Option (List ChunkPart)
deriving Repr, DecidableEq

/-- The behaviour of `model.generate_content` for one attempt: either the
streaming call yields chunks, or it raises and the non-streaming fallback is
used (with the image failures the dying stream had already accumulated). -/
inductive ModelBehavior where
  | streamOk (chunks : List Chunk)
  | streamFails (preFailures : Nat) (resp : NonStreamResp)
deriving Repr, DecidableEq

structure GenEnv where
  configRaises : Bool
  modelRaises : Bool
  promptResult : Option String
  behavior : ModelBehavior
  tempDir : String
deriving Repr, DecidableEq

structure GenResult where
  title : String
  story_text : String
  story_segments : List String
  image_files : List String
  temp_dir : String
  prompt_text : String
  image_data : List (String × String)
deriving Repr, DecidableEq

/-- The hard-coded fallback prompt used when the prompt generator returns a
falsy value (`generate`, line 192). -/
def sessionFallbackPrompt : String :=
  "Generate a story about a clever fox going on an adventure in an enchanted forest in a highly detailed 3d cartoon animation style. For each scene, generate a high-quality, photorealistic image for each scene **in landscape orientation suitable for a widescreen (16:9 aspect ratio) YouTube video**. Ensure maximum detail, vibrant colors, and professional lighting."

/-- The prompt the session submits: the prompt generator result when enabled
and truthy, the hard-coded fallback when enabled and falsy, or the guidance
string verbatim when disabled. -/
def promptTextOf (usePromptGenerator : Bool) (promptInput : String)
    (promptResult : Option String) : String :=
  if usePromptGenerator then
    match promptResult with
    | some p => if p ≠ "" then p else sessionFallbackPrompt
    | none => sessionFallbackPrompt
  else promptInput

/-- The request body `contents`: one user turn holding the prompt text. -/
def requestContents (promptText : String) : List (String × List String) :=
  [("user", [promptText])]

/-- Stream-processing state: accumulated story text, closed segments, the
open segment, buffered image records, the image-failure counter, and the
abort flag raised by a JSON decode error. -/
structure SState where
  story_text : String
  segments : List String
  current : String
  images : List InlineImage
  failures : Nat
  jsonAbort : Bool
deriving Repr, DecidableEq

def initSState : SState :=
  { story_text := "", segments := [], current := "", images := [], failures := 0,
    jsonAbort := false }

/-- Text handling for one chunk: append to the running buffers; if the open
segment now contains a blank-line boundary, split once at the leftmost
boundary, closing the part before it. -/
def procText (s : SState) (t : String) : SState :=
  let st := s.story_text ++ t
  let cur := s.current ++ t
  if pyHasBlank cur.data then
    match pySplitOnce cur.data with
    | [a, b] =>
      { s with
        story_text := st
        segments := s.segments ++ [String.mk a]
        current := String.mk b }
    | _ => { s with story_text := st, segments := s.segments ++ [cur], current := "" }
  else { s with story_text := st, current := cur }

/-- Image handling for one part: a truthy `inline_data` either raises while
being processed (counting one failure) or is buffered. -/
def procPart (s : SState) (p : ChunkPart) : SState :=
  match p.inline with
  | some img =>
    if p.procRaises then { s with failures := s.failures + 1 }
    else { s with images := s.images ++ [img] }
  | none => s

def procChunk (s : SState) (c : Chunk) : SState :=
  if s.jsonAbort then s
  else if c.jsonErr then { s with jsonAbort := true }
  else if c.otherErr then s
  else
    let s1 :=
      match c.text with
      | some t => if t ≠ "" then procText s t else s
      | none => s
    match c.parts with
    | some ps => ps.foldl procPart s1
    | none => s1

def max_image_retries : Nat := 3

/-- The outcome of the submit-and-consume phase, before the common tail. -/
inductive SessionMid where
  | abort
  | proceed (storyText : String) (segs : List String) (imgs : List InlineImage)
      (fails : Nat)
deriving Repr, DecidableEq

/-- The streaming path: fold the chunks, append the open segment if
non-empty, force the failure counter to the ceiling when no image arrived,
and abort on a JSON error or on reaching the ceiling. -/
def runStream (chunks : List Chunk) : SessionMid :=
  let s := chunks.foldl procChunk initSState
  if s.jsonAbort then .abort
  else
    let segs := if s.current ≠ "" then s.segments ++ [s.current] else s.segments
    let fails := if s.images.isEmpty then max_image_retries else s.failures
    if fails ≥ max_image_retries then .abort
    else .proceed s.story_text segs s.images fails

def nsImages (ps : List ChunkPart) (f0 : Nat) : List InlineImage × Nat :=
  ps.foldl
    (fun acc p =>
      match p.inline with
      | some img => if p.procRaises then (acc.1, acc.2 + 1) else (acc.1 ++ [img], acc.2)
      | none => acc)
    ([], f0)

/-- The non-streaming fallback path: split the whole text at blank lines,
keep the segments whose strip is truthy, process the parts, and abort when
either the segment list or the image list is empty. -/
def runNonStream (preFailures : Nat) (r : NonStreamResp) : SessionMid :=
  if r.raises then .abort
  else
    let st := r.text.getD ""
    let segs :=
      match r.text with
      | some t => ((pySplitAll t.data).map String.mk).filter (fun x => pyStrip x != "")
      | none => []
    let im := nsImages (r.parts.getD []) preFailures
    if segs.isEmpty || im.1.isEmpty then .abort
    else .proceed st segs im.1 im.2

def sessionMid : ModelBehavior → SessionMid
  | .streamOk chunks => runStream chunks
  | .streamFails pre resp => runNonStream pre resp

/-- Title derivation: the first line of the first segment, stripped;
`"Generated Story"` when there is no segment. -/
def storyTitle (segs : List String) : String :=
  match segs with
  | [] => "Generated Story"
  | s0 :: _ => pyStrip ((pySplitNl s0).headD "")

/-- First-segment cleaning: drop the leading title line when the segment has
more than one line, else just strip. -/
def cleanFirstSegment (seg : String) : String :=
  let lines := pySplitNl seg
  if lines.length > 1 then pyStrip (String.intercalate "\n" lines.tail)
  else pyStrip seg

def cleanSegments : List String → List String
  | [] => []
  | s0 :: rest => cleanFirstSegment s0 :: rest.map pyStrip

/-- Persist one image: extension from the MIME type (`jpeg` is rewritten to
`jpg`), a 1-based sequence-indexed path; a save exception yields no path and
one failure; the path is recorded before verification, so a failed
verification keeps the path and adds one failure. -/
def saveOne (tempDir : String) (idx : Nat) (img : InlineImage) : Option String × Nat :=
  let ext0 := (pySplitSlash img.mime).getLastD ""
  let ext := if ext0 = "jpeg" then "jpg" else ext0
  let path := tempDir ++ "/image_" ++ toString (idx + 1) ++ "." ++ ext
  if img.saveRaises then (none, 1)
  else (some path, if img.verifyFails then 1 else 0)

def saveImagesGo (tempDir : String) (idx : Nat) : List InlineImage → List String × Nat
  | [] => ([], 0)
  | img :: rest =>
    let one := saveOne tempDir idx img
    let tail := saveImagesGo tempDir (idx + 1) rest
    ((match one.1 with
      | some p => p :: tail.1
      | none => tail.1), one.2 + tail.2)

/-- The image-saving loop over the buffered records, starting from the
failure count accumulated during streaming. -/
def saveImages (tempDir : String) (imgs : List InlineImage) (f0 : Nat) :
    List String × Nat :=
  let r := saveImagesGo tempDir 0 imgs
  (r.1, f0 + r.2)

/-- The common tail of `generate`: derive the title, clean the segments,
save the images, and reject when the failure counter reaches the ceiling or
fewer than 6 cleaned segments remain. -/
def generateTail (promptText storyText : String) (segs : List String)
    (imgs : List InlineImage) (fails0 : Nat) (tempDir : String) : Option GenResult :=
  if (saveImages tempDir imgs fails0).2 ≥ max_image_retries then none
  else if (cleanSegments segs).length < 6 then none
  else
    some
      { title := storyTitle segs, story_text := storyText,
        story_segments := cleanSegments segs,
        image_files := (saveImages tempDir imgs fails0).1,
        temp_dir := tempDir, prompt_text := promptText,
        image_data := imgs.map (fun i => (i.dataStr, i.mime)) }

/-- The request body the session submits to the model for one attempt. -/
def submittedRequest (usePromptGenerator : Bool) (promptInput : String)
    (env : GenEnv) : List (String × List String) :=
  requestContents (promptTextOf usePromptGenerator promptInput env.promptResult)

/-- Function `generate`: configure the client, build the prompt, run one attempt
against the model behaviour, and finish with the common tail. -/
def generate (usePromptGenerator : Bool) (promptInput : String) (env : GenEnv) :
    Option GenResult :=
  if env.configRaises then none
  else if env.modelRaises then none
  else
    match sessionMid env.behavior with
    | SessionMid.abort => none
    | SessionMid.proceed st segs imgs fails =>
      generateTail (promptTextOf usePromptGenerator promptInput env.promptResult)
        st segs imgs fails env.tempDir

/-! ## Generation supervisor: `generators/story_generator.py`,
`retry_story_generation` -/

/-- Modelled from the spec: `collect_complete_story` lives in
`utils/media_utils.py`, which is not part of the sources; only its call
site (`check_generation_status`, with `return_segments=True`) is.  The spec
defines a Segment as a blank-line-delimited block of story text whose
invariant is to be non-empty after trimming, so the call is modelled as the
trimmed, non-empty blank-line-delimited segments of the story text. -/
def collect_complete_story (storyText : String) : List String :=
  (((pySplitAll storyText.data).map String.mk).map pyStrip).filter (fun s => s != "")

/-- Function `check_generation_status`: false when the stored story text or image
list is falsy, when fewer than 6 segments are collected, or when fewer than
6 image files are stored; true (marking success) otherwise. -/
def check_generation_status (storyText : Option String) (imageFiles : List String) :
    Bool :=
  match storyText with
  | none => false
  | some st =>
    if st = "" then false
    else if imageFiles.isEmpty then false
    else if (collect_complete_story st).length < 6 then false
    else if imageFiles.length < 6 then false
    else true

/-- The `results` container of the supervisor. -/
structure SupResults where
  story_text : Option String
  image_files : List String
  output_path : Option String
  thumbnail_path : Option String
  metadata : Option String
  temp_dir : Option String
  prompt_text : Option String
deriving Repr, DecidableEq

def initResults : SupResults :=
  { story_text := none, image_files := [], output_path := none,
    thumbnail_path := none, metadata := none, temp_dir := none,
    prompt_text := none }

/-- Result capture of `generation_wrapper`: each truthy field of a returned
dict overwrites the stored one; a null attempt leaves everything intact. -/
def updResults (res : SupResults) (g : Option GenResult) : SupResults :=
  match g with
  | none => res
  | some r =>
    let r1 := if r.story_text != "" then { res with story_text := some r.story_text } else res
    let r2 := if r.image_files.isEmpty then r1 else { r1 with image_files := r.image_files }
    let r3 := if r.temp_dir != "" then { r2 with temp_dir := some r.temp_dir } else r2
    if r.prompt_text != "" then { r3 with prompt_text := some r.prompt_text } else r3

def max_retries : Nat := 1000

/-- One supervisor attempt: run `generate` for attempt `i` and capture. -/
def supervisorStep (upg : Bool) (inp : String) (envs : Nat → GenEnv)
    (res : SupResults) (i : Nat) : SupResults :=
  updResults res (generate upg inp (envs i))

def checkStatus (res : SupResults) : Bool :=
  check_generation_status res.story_text res.image_files

/-- The supervisor loop: run an attempt, stop when the status check marks
success, else sleep and retry until the ceiling. -/
def supLoop (upg : Bool) (inp : String) (envs : Nat → GenEnv) :
    Nat → Nat → SupResults → SupResults
  | 0, _, res => res
  | fuel + 1, i, res =>
    let res1 := supervisorStep upg inp envs res i
    if checkStatus res1 then res1 else supLoop upg inp envs fuel (i + 1) res1

/-- Function `retry_story_generation`: the loop from a fresh `results` container; the
container is returned whatever the success state. -/
def retry_story_generation (upg : Bool) (inp : String) (envs : Nat → GenEnv) :
    SupResults :=
  supLoop upg inp envs max_retries 0 initResults

/-- The capture-fold of the first `k` attempts, starting at attempt `i`. -/
def supFold (upg : Bool) (inp : String) (envs : Nat → GenEnv) (i k : Nat)
    (res : SupResults) : SupResults :=
  (List.range' i k).foldl (supervisorStep upg inp envs) res

theorem supLoop_eq_fold (upg : Bool) (inp : String) (envs : Nat → GenEnv) :
    ∀ (fuel i : Nat) (res : SupResults),
      ∃ k, k ≤ fuel ∧ supLoop upg inp envs fuel i res = supFold upg inp envs i k res := by
  intro fuel
  induction fuel with
  | zero => intro i res; exact ⟨0, Nat.le_refl 0, rfl⟩
  | succ n ih =>
    intro i res
    by_cases hc : checkStatus (supervisorStep upg inp envs res i)
    · refine ⟨1, Nat.succ_le_succ (Nat.zero_le n), ?_⟩
      simp only [supLoop, hc, if_true]
      simp [supFold, List.range'_succ]
    · obtain ⟨k, hk, heq⟩ := ih (i + 1) (supervisorStep upg inp envs res i)
      refine ⟨k + 1, Nat.succ_le_succ hk, ?_⟩
      simp only [supLoop, hc, if_false]
      rw [heq]
      simp [supFold, List.range'_succ]

/-! ## Concrete environments used by the claim witnesses and counterexamples -/

def textChunk (t : String) : Chunk :=
  { text := some t, parts := none, jsonErr := false, otherErr := false }

def imagePart (img : InlineImage) : ChunkPart :=
  { inline := some img, procRaises := false }

def goodImage : InlineImage :=
  { dataStr := "ZA==", mime := "image/jpeg", saveRaises := false, verifyFails := false }

def badVerifyImage : InlineImage :=
  { dataStr := "Qg==", mime := "image/png", saveRaises := false, verifyFails := true }

def imageChunk (imgs : List InlineImage) : Chunk :=
  { text := none, parts := some (imgs.map imagePart), jsonErr := false,
    otherErr := false }

/-- A streaming run delivering seven segments and one valid image. -/
def goodEnv : GenEnv :=
  { configRaises := false, modelRaises := false, promptResult := none,
    behavior := ModelBehavior.streamOk
      [textChunk "S1\n\n", textChunk "S2\n\n", textChunk "S3\n\n",
        textChunk "S4\n\n", textChunk "S5\n\n", textChunk "S6\n\n",
        textChunk "S7", imageChunk [goodImage]],
    tempDir := "T" }

/-- The result `generate` produces under `goodEnv` with the prompt acquirer
disabled and guidance `p`. -/
def mkGoodRes (p : String) : GenResult :=
  { title := "S1",
    story_text := "S1\n\nS2\n\nS3\n\nS4\n\nS5\n\nS6\n\nS7",
    story_segments := ["S1", "S2", "S3", "S4", "S5", "S6", "S7"],
    image_files := ["T/image_1.jpg"],
    temp_dir := "T", prompt_text := p,
    image_data := [("ZA==", "image/jpeg")] }

/-- A streaming run whose second image decodes and saves but fails the PIL
verification open. -/
def c6Env : GenEnv :=
  { configRaises := false, modelRaises := false, promptResult := none,
    behavior := ModelBehavior.streamOk
      [textChunk "S1\n\n", textChunk "S2\n\n", textChunk "S3\n\n",
        textChunk "S4\n\n", textChunk "S5\n\n", textChunk "S6\n\n",
        textChunk "S7", imageChunk [goodImage, badVerifyImage]],
    tempDir := "T" }

/-- A streaming run whose second segment is whitespace only. -/
def c7Env : GenEnv :=
  { configRaises := false, modelRaises := false, promptResult := none,
    behavior := ModelBehavior.streamOk
      [textChunk "S1\n\n", textChunk " \n\n", textChunk "S3\n\n",
        textChunk "S4\n\n", textChunk "S5\n\n", textChunk "S6\n\n",
        textChunk "S7", imageChunk [goodImage]],
    tempDir := "T" }

/-- A non-streaming fallback response with six segments and one image. -/
def c7NsResp : NonStreamResp :=
  { raises := false, text := some "N1\n\nN2\n\nN3\n\nN4\n\nN5\n\nN6",
    parts := some [imagePart goodImage] }

def c7NsEnv : GenEnv :=
  { configRaises := false, modelRaises := false, promptResult := none,
    behavior := ModelBehavior.streamFails 0 c7NsResp, tempDir := "T" }

/-- The result `generate` produces under `c7NsEnv` with guidance `p`. -/
def c7NsRes : GenResult :=
  { title := "N1",
    story_text := "N1\n\nN2\n\nN3\n\nN4\n\nN5\n\nN6",
    story_segments := ["N1", "N2", "N3", "N4", "N5", "N6"],
    image_files := ["T/image_1.jpg"],
    temp_dir := "T", prompt_text := "p",
    image_data := [("ZA==", "image/jpeg")] }

/-! ## Structural lemmas -/

theorem generateTail_eq_some (pt st : String) (segs : List String)
    (imgs : List InlineImage) (f0 : Nat) (td : String) (r : GenResult)
    (h : generateTail pt st segs imgs f0 td = some r) :
    r = { title := storyTitle segs, story_text := st,
          story_segments := cleanSegments segs,
          image_files := (saveImages td imgs f0).1,
          temp_dir := td, prompt_text := pt,
          image_data := imgs.map (fun i => (i.dataStr, i.mime)) } ∧
      (saveImages td imgs f0).2 < max_image_retries ∧
      6 ≤ (cleanSegments segs).length := by
  unfold generateTail at h
  by_cases h1 : (saveImages td imgs f0).2 ≥ max_image_retries
  · rw [if_pos h1] at h; exact absurd h (by simp)
  · rw [if_neg h1] at h
    by_cases h2 : (cleanSegments segs).length < 6
    · rw [if_pos h2] at h; exact absurd h (by simp)
    · rw [if_neg h2] at h
      simp only [Option.some.injEq] at h
      exact ⟨h.symm, Nat.lt_of_not_le h1, Nat.le_of_not_lt h2⟩

/-- Every accepted attempt of the session goes through `generateTail`. -/
theorem generate_eq_some (upg : Bool) (inp : String) (env : GenEnv) (r : GenResult)
    (h : generate upg inp env = some r) :
    ∃ st segs imgs fails,
      sessionMid env.behavior = SessionMid.proceed st segs imgs fails ∧
      generateTail (promptTextOf upg inp env.promptResult) st segs imgs fails
        env.tempDir = some r := by
  unfold generate at h
  by_cases h1 : env.configRaises
  · rw [if_pos h1] at h; exact absurd h (by simp)
  · rw [if_neg h1] at h
    by_cases h2 : env.modelRaises
    · rw [if_pos h2] at h; exact absurd h (by simp)
    · rw [if_neg h2] at h
      cases hmid : sessionMid env.behavior with
      | abort => rw [hmid] at h; exact absurd h (by simp)
      | proceed st segs imgs fails =>
        rw [hmid] at h
        exact ⟨st, segs, imgs, fails, rfl, h⟩

theorem saveImagesGo_length (td : String) :
    ∀ (imgs : List InlineImage) (idx : Nat),
      (saveImagesGo td idx imgs).1.length
        = (imgs.filter (fun i => !i.saveRaises)).length := by
  intro imgs
  induction imgs with
  | nil => intro idx; rfl
  | cons img rest ih =>
    intro idx
    by_cases hs : img.saveRaises
    · simp [saveImagesGo, saveOne, hs, List.filter_cons, ih (idx + 1)]
    · simp [saveImagesGo, saveOne, hs, List.filter_cons, ih (idx + 1)]

theorem updResults_none (res : SupResults) : updResults res none = res := rfl

theorem updResults_story_text (res : SupResults) (r : GenResult) :
    (updResults res (some r)).story_text
      = (if r.story_text != "" then some r.story_text else res.story_text) := by
  unfold updResults
  by_cases h1 : r.story_text != ""
  <;> by_cases h2 : r.image_files.isEmpty
  <;> by_cases h3 : r.temp_dir != ""
  <;> by_cases h4 : r.prompt_text != ""
  <;> simp [h1, h2, h3, h4]

theorem updResults_image_files (res : SupResults) (r : GenResult) :
    (updResults res (some r)).image_files
      = (if r.image_files.isEmpty then res.image_files else r.image_files) := by
  unfold updResults
  by_cases h1 : r.story_text != ""
  <;> by_cases h2 : r.image_files.isEmpty
  <;> by_cases h3 : r.temp_dir != ""
  <;> by_cases h4 : r.prompt_text != ""
  <;> simp [h1, h2, h3, h4]

/-! ## Claims about the story/image session -/

/-- Claim C1, counterexample: the claim says the session returns null
whenever fewer than 6 images were decoded, persisted and validated, but a
streaming run with seven segments and a single valid image is accepted:
`generate` returns a non-null result whose image-file list has length 1. -/
theorem c1_counterexample :
    (generate false "p" goodEnv).map (fun r => r.image_files.length) = some 1 := by
  rfl

/-- Claim C1, amended: the session rejects an attempt when the cleaned
segment list has fewer than 6 entries or the image-failure counter reaches
the ceiling, so every accepted result has at least 6 cleaned segments, but
the session itself never checks the image count; only the supervisor
function `check_generation_status` marks success, and it does so only when both the
collected segment count and the image-file count are at least 6. -/
theorem c1_amended_thresholds :
    (∀ (upg : Bool) (inp : String) (env : GenEnv) (r : GenResult),
        generate upg inp env = some r → 6 ≤ r.story_segments.length) ∧
    (∀ (ost : Option String) (files : List String),
        check_generation_status ost files = true →
          6 ≤ (collect_complete_story (ost.getD "")).length ∧ 6 ≤ files.length) := by
  constructor
  · intro upg inp env r h
    obtain ⟨st, segs, imgs, fails, hmid, htail⟩ := generate_eq_some upg inp env r h
    obtain ⟨hr, hfail, hlen⟩ := generateTail_eq_some _ _ _ _ _ _ _ htail
    rw [hr]
    exact hlen
  · intro ost files h
    cases ost with
    | none => exact absurd h (by simp [check_generation_status])
    | some st =>
      simp only [check_generation_status] at h
      by_cases h1 : st = ""
      · rw [if_pos h1] at h; exact absurd h (by simp)
      · rw [if_neg h1] at h
        by_cases h2 : files.isEmpty
        · rw [if_pos h2] at h; exact absurd h (by simp)
        · rw [if_neg h2] at h
          by_cases h3 : (collect_complete_story st).length < 6
          · rw [if_pos h3] at h; exact absurd h (by simp)
          · rw [if_neg h3] at h
            by_cases h4 : files.length < 6
            · rw [if_pos h4] at h; exact absurd h (by simp)
            · exact ⟨Nat.le_of_not_lt h3, Nat.le_of_not_lt h4⟩

/-- Claim C1, witness: the amended theorem applied to the seven-segment
streaming run and to a concrete supervisor state the status check accepts. -/
theorem c1_amended_witness :
    6 ≤ (mkGoodRes "p").story_segments.length ∧
    (6 ≤ (collect_complete_story ((some "A\n\nB\n\nC\n\nD\n\nE\n\nF").getD "")).length ∧
      6 ≤ (["i1", "i2", "i3", "i4", "i5", "i6"] : List String).length) :=
  ⟨c1_amended_thresholds.1 false "p" goodEnv (mkGoodRes "p") (by rfl),
    c1_amended_thresholds.2 (some "A\n\nB\n\nC\n\nD\n\nE\n\nF")
      ["i1", "i2", "i3", "i4", "i5", "i6"] (by decide)⟩

/-- Claim C6, counterexample: the claim says an image that fails the
decodability verification does not appear in the image list of the result, but
the code records the path before verifying: under `c6Env` the second image
fails verification (one counted failure) yet its path is in the image-file
list of the accepted result. -/
theorem c6_counterexample :
    (generate false "p" c6Env).map (fun r => r.image_files)
        = some ["T/image_1.jpg", "T/image_2.png"] ∧
      badVerifyImage.verifyFails = true ∧
      (saveImages "T" [goodImage, badVerifyImage] 0).2 = 1 :=
  ⟨by rfl, rfl, by rfl⟩

/-- Claim C6, amended: in every accepted result the image-file list is
exactly the list of successfully decoded-and-written files in order — a
failed verification open adds one failure (bounded by the ceiling) but the
path stays in the list. -/
theorem c6_amended_saved_files :
    ∀ (pt st : String) (segs : List String) (imgs : List InlineImage)
      (f0 : Nat) (td : String) (r : GenResult),
      generateTail pt st segs imgs f0 td = some r →
        r.image_files = (saveImages td imgs f0).1 ∧
        (saveImages td imgs f0).2 < max_image_retries ∧
        r.image_files.length = (imgs.filter (fun i => !i.saveRaises)).length := by
  intro pt st segs imgs f0 td r h
  obtain ⟨hr, hfail, _⟩ := generateTail_eq_some _ _ _ _ _ _ _ h
  rw [hr]
  exact ⟨rfl, hfail, saveImagesGo_length td imgs 0⟩

/-- Claim C6, witness: the amended theorem applied to the single-good-image
streaming run. -/
theorem c6_amended_witness :
    (mkGoodRes "p").image_files = (saveImages "T" [goodImage] 0).1 ∧
    (saveImages "T" [goodImage] 0).2 < max_image_retries ∧
    (mkGoodRes "p").image_files.length
      = ([goodImage].filter (fun i => !i.saveRaises)).length :=
  c6_amended_saved_files "p" "S1\n\nS2\n\nS3\n\nS4\n\nS5\n\nS6\n\nS7"
    ["S1", "S2", "S3", "S4", "S5", "S6", "S7"] [goodImage] 0 "T"
    (mkGoodRes "p") (by rfl)

/-- Claim C7, counterexample: the claim says every cleaned segment is
non-empty after trimming on both paths, but a streaming run whose second
text chunk is whitespace-only is accepted with an empty cleaned segment. -/
theorem c7_counterexample :
    (generate false "p" c7Env).map (fun r => r.story_segments)
      = some ["S1", "", "S3", "S4", "S5", "S6", "S7"] := by
  rfl

/-- Claim C7, amended: only the non-streaming batched path filters segments
by truthy strip, so there every cleaned segment after the first is non-empty;
the streaming path (and the first segment on either path) has no such
guarantee. -/
theorem c7_amended_nonstream_tail :
    ∀ (upg : Bool) (inp : String) (env : GenEnv) (pre : Nat)
      (resp : NonStreamResp) (r : GenResult),
      env.behavior = ModelBehavior.streamFails pre resp →
      generate upg inp env = some r →
      ∀ s ∈ r.story_segments.tail, s ≠ "" := by
  intro upg inp env pre resp r hbeh h s hs
  obtain ⟨st, segs, imgs, fails, hmid, htail⟩ := generate_eq_some upg inp env r h
  rw [hbeh] at hmid
  obtain ⟨hr, _, _⟩ := generateTail_eq_some _ _ _ _ _ _ _ htail
  simp only [sessionMid, runNonStream] at hmid
  by_cases h1 : resp.raises
  · rw [if_pos h1] at hmid; exact absurd hmid (by simp)
  · rw [if_neg h1] at hmid
    cases htext : resp.text with
    | none =>
      rw [htext] at hmid
      exact absurd hmid (by simp)
    | some t =>
      rw [htext] at hmid
      by_cases h2 :
          ((((pySplitAll t.data).map String.mk).filter
            (fun x => pyStrip x != "")).isEmpty
            || (nsImages (resp.parts.getD []) pre).1.isEmpty) = true
      · rw [if_pos h2] at hmid; exact absurd hmid (by simp)
      · rw [if_neg h2] at hmid
        simp only [SessionMid.proceed.injEq] at hmid
        obtain ⟨hst, hsegs, himgs, hfails⟩ := hmid
        rw [hr] at hs
        simp only at hs
        rw [← hsegs] at hs
        cases hsplit : ((pySplitAll t.data).map String.mk).filter
            (fun x => pyStrip x != "") with
        | nil => rw [hsplit] at hs; exact absurd hs (by simp [cleanSegments])
        | cons s0 rest =>
          rw [hsplit] at hs
          simp only [cleanSegments, List.tail_cons] at hs
          obtain ⟨x, hxmem, hxeq⟩ := List.mem_map.1 hs
          have hxin : x ∈ ((pySplitAll t.data).map String.mk).filter
              (fun y => pyStrip y != "") := by
            rw [hsplit]; exact List.mem_cons_of_mem s0 hxmem
          have hpred := (List.mem_filter.1 hxin).2
          rw [← hxeq]
          exact bne_iff_ne.1 hpred

/-- Claim C7, witness: the amended theorem applied to a concrete
non-streaming run, at the second cleaned segment. -/
theorem c7_amended_witness : ("N2" : String) ≠ "" :=
  c7_amended_nonstream_tail false "p" c7NsEnv 0 c7NsResp c7NsRes rfl (by rfl)
    "N2" (by decide)

/-- Claim C9: title derivation — for first segment `"My Title\nBody line"`
the title is `"My Title"` and the cleaned segment is `"Body line"`; for the
single-line first segment `"OnlyLine"` the title is `"OnlyLine"` and the
cleaned segment is unchanged, the title line being stripped only when the
segment has more than one line. -/
theorem c9_title_derivation :
    storyTitle ["My Title\nBody line"] = "My Title" ∧
    cleanSegments ["My Title\nBody line"] = ["Body line"] ∧
    storyTitle ["OnlyLine"] = "OnlyLine" ∧
    cleanSegments ["OnlyLine"] = ["OnlyLine"] :=
  ⟨by decide, by decide, by decide, by decide⟩

/-- Claim C10: with the prompt acquirer disabled the session submits the
guidance string verbatim as the model prompt — the request body is exactly
one user turn holding it, with no template wrapping or validation — and any
result it returns carries `prompt_text` equal to that string. -/
theorem c10_direct_prompt (p : String) (env : GenEnv) (r : GenResult) :
    submittedRequest false p env = requestContents p ∧
    (generate false p env = some r → r.prompt_text = p) := by
  constructor
  · rfl
  · intro h
    obtain ⟨st, segs, imgs, fails, hmid, htail⟩ := generate_eq_some false p env r h
    obtain ⟨hr, _, _⟩ := generateTail_eq_some _ _ _ _ _ _ _ htail
    rw [hr]
    rfl

/-- Claim C10, witness: the theorem applied to the seven-segment streaming
run with a concrete guidance string. -/
theorem c10_witness :
    submittedRequest false "Prompt!" goodEnv = requestContents "Prompt!" ∧
    (mkGoodRes "Prompt!").prompt_text = "Prompt!" :=
  ⟨(c10_direct_prompt "Prompt!" goodEnv (mkGoodRes "Prompt!")).1,
    (c10_direct_prompt "Prompt!" goodEnv (mkGoodRes "Prompt!")).2 (by rfl)⟩

/-! ## Claims about the prompt acquirer -/

/-- Claim C4: for every guidance string and under any exception or
malformed output of the model, `generate_prompt` returns a non-empty
string — every failure path ends in the procedural fallback and every
direct return passed a validation that forces a non-empty result. -/
theorem promptRecover_length_pos (inp : String) (a s : Nat) (gp2 : String) :
    0 < (promptRecover inp a s gp2).length := by
  unfold promptRecover
  split
  · next h2 => exact pyIn_pos _ _ (by decide) h2
  · exact fallback_length_pos inp _ _

theorem promptValidate_length_pos (inp : String) (a s : Nat) (gp : String) :
    0 < (promptValidate inp a s gp).length := by
  unfold promptValidate
  split
  · next hcond =>
    have hc := hcond
    simp only [Bool.and_eq_true] at hc
    exact pyIn_pos _ _ (by decide) hc.1
  · exact promptRecover_length_pos inp _ _ _

theorem c4_prompt_never_empty (inp : String) (us : Bool) (env : PromptEnv) :
    0 < (generate_prompt inp us env).length := by
  simp only [generate_prompt]
  split
  · exact fallback_length_pos inp _ _
  · split
    · exact fallback_length_pos inp _ _
    · exact promptValidate_length_pos inp _ _ _

/-- A model reply that contains the first required substring but not the
second and carries no quotes to recover from. -/
def c8Env : PromptEnv :=
  { outerRaises := false, streamRaises := false,
    streamChunks := ["Generate a story about a cat"], nonStreamRaises := false,
    nonStreamText := none, animalIdx := 0, settingIdx := 0 }

/-- Claim C8, counterexample: the recovery branch re-checks only
`"Generate a story about"`, so this reply is returned unchanged even though
it lacks `"going on an adventure in"`. -/
theorem c8_counterexample :
    generate_prompt "x" true c8Env = "Generate a story about a cat" ∧
    pyIn promptSub2 (generate_prompt "x" true c8Env) = false := by
  constructor
  · decide
  · decide

/-- Claim C8, amended: every prompt `generate_prompt` returns — direct,
recovered, or fallback — contains `"Generate a story about"`; the second
required substring is only checked on the direct path, so a prompt that
went through the quoted-text recovery may lack it. -/
theorem promptRecover_sub1 (inp : String) (a s : Nat) (gp2 : String) :
    pyIn promptSub1 (promptRecover inp a s gp2) = true := by
  unfold promptRecover
  split
  · next h2 => exact h2
  · exact fallback_contains_sub1 inp _ _

theorem promptValidate_sub1 (inp : String) (a s : Nat) (gp : String) :
    pyIn promptSub1 (promptValidate inp a s gp) = true := by
  unfold promptValidate
  split
  · next hcond =>
    have hc := hcond
    simp only [Bool.and_eq_true] at hc
    exact hc.1
  · exact promptRecover_sub1 inp _ _ _

theorem c8_amended_first_substring (inp : String) (us : Bool) (env : PromptEnv) :
    pyIn promptSub1 (generate_prompt inp us env) = true := by
  simp only [generate_prompt]
  split
  · exact fallback_contains_sub1 inp _ _
  · split
    · exact fallback_contains_sub1 inp _ _
    · exact promptValidate_sub1 inp _ _ _

/-! ## Claims about the transient-call retrier -/

/-- A content response whose single part carries the image-description
marker in its text. -/
def flaggedResp : PyResult :=
  PyResult.resp [some [some "**Image Description:** A fox in a forest"]]

def c2Calls : Nat → CallOutcome := fun _ => CallOutcome.ok flaggedResp

/-- Claim C2: the claim says a content-generation result carrying the
literal image-description marker is treated as a soft failure and retried,
but the `continue` in the scan only advances the inner parts loop, so the
code sleeps once and then returns the flagged response as the success of
attempt 1: the delivered value is the flagged response itself. -/
theorem c2_marker_returned_as_success :
    retry_api_call "generate_content" c2Calls = (some flaggedResp, [retry_delay]) := by
  decide

/-- Claim C3: on a 429 error, then a 500 error, then a success, the retrier
sleeps twice the fixed delay after the 429 (the rate-limit branch doubles
the delay and skips the shared trailing sleep), exactly the fixed delay
after the 500, and delivers the value of the third call unchanged. -/
theorem c3_backoff_sequence
    (fn m1 m2 : String) (v : PyResult) (calls : Nat → CallOutcome)
    (h0 : calls 0 = CallOutcome.exn m1)
    (h1 : calls 1 = CallOutcome.exn m2)
    (h2 : calls 2 = CallOutcome.ok v)
    (h429 : pyIn "429 Too Many Requests" m1 = true)
    (h500a : pyIn "500 Internal Server Error" m1 = false)
    (h503a : pyIn "503 Service Unavailable" m1 = false)
    (h500b : pyIn "500 Internal Server Error" m2 = true)
    (hv : v ≠ PyResult.pynone)
    (hcontent : (fn == "generate_content_stream" || fn == "generate_content") = true →
      pyTruthy v = true ∧ markerSleeps v = []) :
    retry_api_call fn calls = (some v, [2 * retry_delay, retry_delay]) := by
  have e1 : exnBranch m1 = ([2 * retry_delay], true) := by
    unfold exnBranch
    rw [h500a, h503a, h429]
    simp
  have e2 : exnBranch m2 = ([], false) := by
    unfold exnBranch
    rw [h500b]
    simp
  have hlast : retryGo fn calls 998 2 = (some v, []) := by
    cases hb : (fn == "generate_content_stream" || fn == "generate_content") with
    | true =>
      obtain ⟨ht, hm⟩ := hcontent hb
      have hstep := retryGo_ok_content fn calls 997 2 v h2 hb ht
      rw [hm] at hstep
      exact hstep
    | false => exact retryGo_ok_other fn calls 997 2 v h2 hb hv
  have hstep1 : retryGo fn calls 999 1 = (some v, [retry_delay]) := by
    have hstep := retryGo_exn_step fn calls 998 1 m2 h1
    rw [e2, show (1 : Nat) + 1 = 2 from rfl, hlast] at hstep
    simpa using hstep
  have hstep0 : retryGo fn calls 1000 0 = (some v, [2 * retry_delay, retry_delay]) := by
    have hstep := retryGo_exn_step fn calls 999 0 m1 h0
    rw [e1, show (0 : Nat) + 1 = 1 from rfl, hstep1] at hstep
    simpa using hstep
  exact hstep0

def c3Calls : Nat → CallOutcome := fun i =>
  if i = 0 then CallOutcome.exn "429 Too Many Requests"
  else if i = 1 then CallOutcome.exn "500 Internal Server Error"
  else CallOutcome.ok (PyResult.plain true)

/-- Claim C3, witness: the backoff theorem applied to a concrete injected
error sequence for an operation outside the content-call pair. -/
theorem c3_backoff_witness :
    retry_api_call "story_op" c3Calls = (some (PyResult.plain true), [20, 10]) :=
  c3_backoff_sequence "story_op" "429 Too Many Requests"
    "500 Internal Server Error" (PyResult.plain true) c3Calls rfl rfl rfl
    (by decide) (by decide) (by decide) (by decide) (by decide)
    (fun hb => absurd hb (by decide))

/-! ## Claim about the generation supervisor -/

/-- Claim C5: `retry_story_generation` always returns the accumulated
`results` container — the capture-fold of the attempts it ran (at most the
retry ceiling), never an error value or null — and the capture keeps the
most recent truthy story text and image list while a null or falsy attempt
leaves the stored partial result intact. -/
theorem c5_best_effort_result (upg : Bool) (inp : String) (envs : Nat → GenEnv) :
    (∃ k, k ≤ max_retries ∧
      retry_story_generation upg inp envs = supFold upg inp envs 0 k initResults) ∧
    (∀ res : SupResults, updResults res none = res) ∧
    (∀ (res : SupResults) (r : GenResult),
      (updResults res (some r)).story_text
          = (if r.story_text != "" then some r.story_text else res.story_text) ∧
      (updResults res (some r)).image_files
          = (if r.image_files.isEmpty then res.image_files else r.image_files)) := by
  refine ⟨?_, updResults_none,
    fun res r => ⟨updResults_story_text res r, updResults_image_files res r⟩⟩
  obtain ⟨k, hk, heq⟩ := supLoop_eq_fold upg inp envs max_retries 0 initResults
  exact ⟨k, hk, heq⟩
